import Mathlib

set_option linter.unusedVariables false

/-!
Shallow embedding of the decision engine in
`src/showdown_agent/scripts/players/qsag699.py`.

Python floats are modelled as exact rationals (`ℚ`); Python exceptions
(in particular `ZeroDivisionError`) are modelled with the `Except` monad.
The process-wide type-effectiveness table (`TYPE_CHART`), which comes from
the external `poke_env` collaborator, is passed as a total function
parameter (`TypeChart`), following the specification's description of the
table as an immutable mapping defaulting to a neutral multiplier.
-/

namespace ShowdownAgent

inductive MoveCategory where
  | physical
  | special
  | status
deriving DecidableEq

inductive Status where
  | psn
  | brn
  | slp
deriving DecidableEq

inductive Effect where
  | glaiveRush
  | laserFocus
  | foresight
  | miracleEye
deriving DecidableEq

inductive Weather where
  | primordialsea
  | desolateland
  | raindance
  | sunnyday
  | clearskies
deriving DecidableEq

structure Move where
  id : Option String
  type : Option String
  category : MoveCategory
  base_power : Nat
  priority : Int
deriving DecidableEq

structure StatTable where
  atk : Option Nat
  defn : Option Nat
  spa : Option Nat
  spd : Option Nat
  spe : Option Nat
deriving DecidableEq

structure BaseStats where
  atk : Nat
  defn : Nat
  spa : Nat
  spd : Nat
  spe : Nat
deriving DecidableEq

structure Pokemon where
  level : Nat
  type_1 : Option String
  type_2 : Option String
  stats : StatTable
  base_stats : BaseStats
  ability : Option String
  item : Option String
  status : Option Status
  effects : List Effect
  is_terastallized : Bool
  tera_type : Option String
  current_hp : Nat
  max_hp : Nat
  moves : List Move
deriving DecidableEq

structure Battle where
  active_pokemon : Option Pokemon
  opponent_active_pokemon : Option Pokemon
  weather : Weather
  available_switches : List Pokemon

abbrev TypeChart := String → String → ℚ

inductive ActionType where
  | ATTACK
  | STATUS
  | HEAL
  | SWITCH
deriving DecidableEq

structure Action where
  type : ActionType
  move : Option Move := none
  target : Option Pokemon := none
  score : ℚ := 0

inductive ChosenAction where
  | useMove : Move → ChosenAction
  | switchTo : Pokemon → ChosenAction
deriving DecidableEq

def GUARANTEED_CRITICAL_MOVES : List String :=
  ["Storm Throw", "Frost Breath", "Zippy Zap", "Surging Strikes", "Wicked Blow", "Flower Trick"]

def HEALING_MOVES : List String :=
  ["Recover", "Roost", "Slack Off", "Soft-Boiled", "Milk Drink", "Synthesis",
   "Morning Sun", "Moonlight", "Shore Up"]

structure Weights where
  switch : ℚ
  attack : ℚ
  heal : ℚ
  status : ℚ

def FIRST_ACTING_WEIGHTS : Weights :=
  { switch := 1, attack := 0.9, heal := 0.7, status := 1 }

def LAST_ACTING_WEIGHTS : Weights :=
  { switch := 1, attack := 0.7, heal := 0.9, status := 1 }

def fetch_pokemon_types (pokemon : Pokemon) : List String :=
  (match pokemon.type_1 with
   | some t => [t]
   | none => []) ++
  (match pokemon.type_2 with
   | some t => [t]
   | none => [])

def fetch_move_type (move : Move) : String :=
  move.type.getD "Normal"

def fetch_move_name (move : Move) : String :=
  move.id.getD "Unknown Move"

def fetch_healing_moves (pokemon : Pokemon) : List Move :=
  pokemon.moves.filter
    (fun move => move.category = MoveCategory.status ∧ fetch_move_name move ∈ HEALING_MOVES)

def fetch_status_moves (pokemon : Pokemon) : List Move :=
  let status_moves := pokemon.moves.filter (fun move => move.category = MoveCategory.status)
  (fetch_healing_moves pokemon).foldl
    (fun sm move => if move ∈ sm then sm.erase move else sm) status_moves

/-- Python `live or base` on an optional stat: `None` and `0` both fall back. -/
def statOrBase (live : Option Nat) (base : Nat) : Nat :=
  match live with
  | some n => if n = 0 then base else n
  | none => base

/-- Python `max((m.priority for m in moves), default=0)`. -/
def maxPriority (moves : List Move) : Int :=
  match moves.map Move.priority with
  | [] => 0
  | p :: ps => ps.foldl max p

def fetch_acting_first (attacker defender : Pokemon) : Bool :=
  if attacker.moves = [] ∨ defender.moves = [] then true
  else if maxPriority attacker.moves ≠ maxPriority defender.moves then
    decide (maxPriority attacker.moves > maxPriority defender.moves)
  else
    decide (statOrBase attacker.stats.spe attacker.base_stats.spe ≥
      statOrBase defender.stats.spe defender.base_stats.spe)

/-- Python `max(xs, key=key)` on a nonempty list: keeps the first element on ties,
replacing the running best only on a strictly greater key. -/
def pymaxBy {α : Type} (key : α → ℚ) : α → List α → α
  | best, [] => best
  | best, x :: xs => if key x > key best then pymaxBy key x xs else pymaxBy key best xs

/-- Python `min(xs, key=key)` on a nonempty list: keeps the first element on ties. -/
def pyminBy {α : Type} (key : α → ℚ) : α → List α → α
  | best, [] => best
  | best, x :: xs => if key x < key best then pyminBy key x xs else pyminBy key best xs

def pymaxPairs {α : Type} : List (α × ℚ) → Option α
  | [] => none
  | k :: ks => some (pymaxBy Prod.snd k ks).1

def pyminPairs {α : Type} : List (α × ℚ) → Option α
  | [] => none
  | k :: ks => some (pyminBy Prod.snd k ks).1

/-- Evaluate a fallible key on every element in order, propagating the first error
(as Python raises out of `max`/`min` when a key call raises). -/
def mapExcept {α β : Type} (f : α → Except String β) : List α → Except String (List β)
  | [] => .ok []
  | x :: xs => do
    let y ← f x
    let ys ← mapExcept f xs
    .ok (y :: ys)

def calculate_level_ratio (attacker : Pokemon) : ℚ :=
  (2 * (attacker.level : ℚ)) / 5 + 2

def calculate_attack_defense_ratio (attacker defender : Pokemon) (move : Move) :
    Except String ℚ :=
  match move.category with
  | MoveCategory.physical =>
    let den := statOrBase defender.stats.defn defender.base_stats.defn
    if den = 0 then .error "ZeroDivisionError"
    else .ok ((statOrBase attacker.stats.atk attacker.base_stats.atk : ℚ) / (den : ℚ))
  | MoveCategory.special =>
    let den := statOrBase defender.stats.spd defender.base_stats.spd
    if den = 0 then .error "ZeroDivisionError"
    else .ok ((statOrBase attacker.stats.spa attacker.base_stats.spa : ℚ) / (den : ℚ))
  | MoveCategory.status => .ok 1

def calculate_base (attacker defender : Pokemon) (move : Move) : Except String ℚ := do
  let ratio ← calculate_attack_defense_ratio attacker defender move
  .ok (calculate_level_ratio attacker * (move.base_power : ℚ) * ratio / 50 + 2)

def calculate_weather_bonus (move : Move) (weather : Weather) : ℚ :=
  let move_name := fetch_move_name move
  let move_type := fetch_move_type move
  match weather with
  | Weather.primordialsea =>
    if move_type = "Fire" then 0 else if move_type = "Water" then 1.5 else 1
  | Weather.desolateland =>
    if move_type = "Water" then 0 else if move_type = "Fire" then 1.5 else 1
  | Weather.raindance =>
    if move_type = "Water" then 1.5 else if move_type = "Fire" then 0.5 else 1
  | Weather.sunnyday =>
    if move_name = "Hydro Steam" then 1.5
    else if move_type = "Fire" then 1.5
    else if move_type = "Water" then 0.5
    else 1
  | Weather.clearskies => 1

def calculate_glaive_bonus (defender : Pokemon) : ℚ :=
  if defender.effects = [] then 1
  else if Effect.glaiveRush ∈ defender.effects then 2
  else 1

def calculate_determined_critical_hit (attacker defender : Pokemon) (move : Move) : ℚ :=
  match defender.ability with
  | none => 1
  | some ab =>
    if ab = "Battle Armor" ∨ ab = "Shell Armor" then 1
    else if fetch_move_name move ∈ GUARANTEED_CRITICAL_MOVES then 1.5
    else
      match defender.status with
      | none => 1
      | some st =>
        if st = Status.psn ∧ attacker.ability = some "Merciless" then 1.5
        else if Effect.laserFocus ∈ attacker.effects then 1.5
        else 1

def calculate_burn_factor (attacker : Pokemon) (move : Move) : ℚ :=
  if move.category ≠ MoveCategory.physical then 1
  else if attacker.status ≠ some Status.brn then 1
  else if attacker.ability = some "Guts" then 1
  else if fetch_move_name move = "Facade" then 1
  else 0.5

def effectiveness_against (tc : TypeChart) (attacker defender : Pokemon) (move : Move)
    (defending_type : String) : ℚ :=
  let move_type := fetch_move_type move
  let move_name := fetch_move_name move
  if move_name = "Flying Press" then
    tc "Fighting" defending_type * tc "Flying" defending_type
  else if move_name = "Freeze-Dry" ∧ defending_type = "Water" then 2
  else
    let e0 := tc move_type defending_type
    let e1 :=
      if attacker.ability = some "Scrappy" ∧ defending_type = "Ghost" ∧
          (move_type = "Normal" ∨ move_type = "Fighting") ∧ e0 = 0 then 1 else e0
    let e2 := if move_name = "Thousand Arrows" ∧ defending_type = "Flying" then 1 else e1
    let e3 := if defender.item = some "Ring Target" ∧ e2 = 0 then 1 else e2
    let e4 :=
      if defender.effects ≠ [] ∧ Effect.foresight ∈ defender.effects ∧
          defending_type = "Ghost" ∧ (move_type = "Normal" ∨ move_type = "Fighting") ∧
          e3 = 0 then 1 else e3
    let e5 :=
      if defender.effects ≠ [] ∧ Effect.miracleEye ∈ defender.effects ∧
          defending_type = "Dark" ∧ move_type = "Psychic" ∧ e4 = 0 then 1 else e4
    e5

def calculate_type_effectiveness (tc : TypeChart) (attacker defender : Pokemon)
    (move : Move) (weather : Weather) : ℚ :=
  (fetch_pokemon_types defender).foldl
    (fun multi dt => multi * effectiveness_against tc attacker defender move dt) 1

def calculate_stab (attacker : Pokemon) (move : Move) : ℚ :=
  let move_type := fetch_move_type move
  if move_type = "Typeless" then 1
  else
    let adapt : Bool := decide (attacker.ability = some "Adaptability")
    let orig_match : Bool := decide (move_type ∈ fetch_pokemon_types attacker)
    let tera_match : Bool :=
      attacker.is_terastallized && decide (attacker.tera_type = some move_type)
    let tera_same_as_orig : Bool :=
      attacker.is_terastallized &&
        (match attacker.tera_type with
         | some t => decide (t ∈ fetch_pokemon_types attacker)
         | none => false)
    if !attacker.is_terastallized then
      if adapt && orig_match then 2 else if orig_match then 1.5 else 1
    else if tera_match && tera_same_as_orig then
      if adapt then 2.25 else 2
    else if tera_match && !tera_same_as_orig then 2
    else if orig_match then 1.5
    else 1

def modifiers_list (tc : TypeChart) (attacker defender : Pokemon) (move : Move)
    (weather : Weather) : List ℚ :=
  [calculate_weather_bonus move weather,
   calculate_glaive_bonus defender,
   calculate_determined_critical_hit attacker defender move,
   0.925,
   calculate_stab attacker move,
   calculate_type_effectiveness tc attacker defender move weather,
   calculate_burn_factor attacker move]

def calculate_expected_damage (tc : TypeChart) :
    Option Pokemon → Option Pokemon → Option Move → Weather → Except String ℚ
  | some attacker, some defender, some move, weather =>
    if move.category = MoveCategory.physical ∨ move.category = MoveCategory.special then
      if move.base_power = 0 then .ok 0
      else do
        let base ← calculate_base attacker defender move
        .ok (base * (modifiers_list tc attacker defender move weather).foldl (· * ·) 1)
    else .ok 0
  | _, _, _, _ => .ok 0

def calculate_expected_healing (healer : Pokemon) (move : Move) : ℚ :=
  if fetch_move_name move = "Rest" then (healer.max_hp : ℚ) - (healer.current_hp : ℚ)
  else min ((healer.max_hp : ℚ) - (healer.current_hp : ℚ)) ((healer.max_hp : ℚ) * 0.5)

def max_by_expected_damage (tc : TypeChart) (attacker defender : Pokemon)
    (weather : Weather) (moves : List Move) : Except String (Option Move) := do
  let keyed ← mapExcept
    (fun m =>
      (calculate_expected_damage tc (some attacker) (some defender) (some m) weather).map
        (fun v => (m, v)))
    moves
  .ok (pymaxPairs keyed)

def calculate_anticipated_move (tc : TypeChart) (attacker defender : Pokemon)
    (weather : Weather) : Except String (Option Move) :=
  if attacker.moves = [] then .ok none
  else max_by_expected_damage tc attacker defender weather attacker.moves

def calculate_anticipated_status_move (tc : TypeChart) (attacker defender : Pokemon)
    (weather : Weather) : Except String (Option Move) :=
  if fetch_status_moves attacker = [] then .ok none
  else max_by_expected_damage tc attacker defender weather (fetch_status_moves attacker)

def calculate_anticipated_healing_move (healer : Pokemon) : Option Move :=
  match fetch_healing_moves healer with
  | [] => none
  | m :: ms => some (pymaxBy (calculate_expected_healing healer) m ms)

def calculate_threat_value (tc : TypeChart) :
    Option Pokemon → Option Pokemon → Weather → Except String ℚ
  | some attacker, some defender, weather => do
    let best_move ← calculate_anticipated_move tc attacker defender weather
    let expected_damage ←
      calculate_expected_damage tc (some attacker) (some defender) best_move weather
    if defender.max_hp = 0 then .error "ZeroDivisionError"
    else .ok (expected_damage / (defender.max_hp : ℚ))
  | _, _, _ => .ok 0

def calculate_best_switch (tc : TypeChart) (battle : Battle) :
    Except String (Option Pokemon) :=
  if battle.available_switches = [] then .ok none
  else do
    let keyed ← mapExcept
      (fun p =>
        (calculate_threat_value tc battle.opponent_active_pokemon (some p) battle.weather).map
          (fun v => (p, v)))
      battle.available_switches
    .ok (pyminPairs keyed)

def calculate_switch_value (tc : TypeChart) (battle : Battle) : Except String ℚ := do
  let current_threat ←
    calculate_threat_value tc battle.opponent_active_pokemon battle.active_pokemon battle.weather
  let best_switch ← calculate_best_switch tc battle
  let best_switch_threat ←
    calculate_threat_value tc battle.opponent_active_pokemon best_switch battle.weather
  .ok (max 0 (current_threat - best_switch_threat))

def calculate_attack_value (tc : TypeChart) :
    Option Pokemon → Option Pokemon → Weather → Except String ℚ
  | some attacker, some defender, weather => do
    let best_move ← calculate_anticipated_move tc attacker defender weather
    let expected_damage ←
      calculate_expected_damage tc (some attacker) (some defender) best_move weather
    if defender.max_hp = 0 then .error "ZeroDivisionError"
    else .ok (expected_damage / (defender.max_hp : ℚ))
  | _, _, _ => .ok 0

def calculate_status_value (tc : TypeChart) :
    Option Pokemon → Option Pokemon → Weather → Except String ℚ
  | some attacker, some defender, weather => do
    let anticipated ← calculate_anticipated_status_move tc attacker defender weather
    match anticipated with
    | some _ =>
      if defender.current_hp = 0 then .error "ZeroDivisionError"
      else .ok ((attacker.current_hp : ℚ) / (defender.current_hp : ℚ))
    | none => .ok 0
  | _, _, _ => .ok 0

def calculate_heal_value : Option Pokemon → Except String ℚ
  | some healer =>
    match calculate_anticipated_healing_move healer with
    | some best_move =>
      if healer.max_hp = 0 then .error "ZeroDivisionError"
      else .ok (calculate_expected_healing healer best_move / (healer.max_hp : ℚ))
    | none => .ok 0
  | none => .ok 0

/-- The four `Action` records of `calculate_most_effective_move` (in source order
switch, attack, status, heal) reduced by Python's first-max `max(actions, key=score)`. -/
def best_action (switch_score attack_score status_score heal_score : ℚ) : Action :=
  pymaxBy Action.score
    { type := ActionType.SWITCH, score := switch_score }
    [{ type := ActionType.ATTACK, score := attack_score },
     { type := ActionType.STATUS, score := status_score },
     { type := ActionType.HEAL, score := heal_score }]

def calculate_most_effective_move (tc : TypeChart) (battle : Battle) :
    Option Pokemon → Option Pokemon → Weather → Except String (Option ChosenAction)
  | some player, some opponent, weather => do
    let switch_value ← calculate_switch_value tc battle
    let status_value ← calculate_status_value tc (some player) (some opponent) weather
    let attack_value ← calculate_attack_value tc (some player) (some opponent) weather
    let heal_value ← calculate_heal_value (some player)
    let weights :=
      if fetch_acting_first player opponent then FIRST_ACTING_WEIGHTS else LAST_ACTING_WEIGHTS
    let best := best_action (switch_value * weights.switch) (attack_value * weights.attack)
      (status_value * weights.status) (heal_value * weights.heal)
    match best.type with
    | ActionType.SWITCH => do
      let s ← calculate_best_switch tc battle
      .ok (s.map ChosenAction.switchTo)
    | ActionType.ATTACK => do
      let m ← calculate_anticipated_move tc player opponent weather
      .ok (m.map ChosenAction.useMove)
    | ActionType.STATUS => do
      let m ← calculate_anticipated_status_move tc player opponent weather
      .ok (m.map ChosenAction.useMove)
    | ActionType.HEAL =>
      .ok ((calculate_anticipated_healing_move player).map ChosenAction.useMove)
  | _, _, _ => .ok none

/-!
Concrete fixtures used by witnesses and counterexamples, and the
well-formedness predicate used to state exception-freedom.
-/

/-- A neutral type chart mapping every pairing to 1. -/
def tcOne : TypeChart := fun _ _ => 1

def basicStats : StatTable := ⟨some 100, some 100, some 100, some 100, some 100⟩

def basicBase : BaseStats := ⟨100, 100, 100, 100, 100⟩

def plainMon : Pokemon :=
  { level := 100, type_1 := some "Normal", type_2 := none, stats := basicStats,
    base_stats := basicBase, ability := none, item := none, status := none, effects := [],
    is_terastallized := false, tera_type := none, current_hp := 100, max_hp := 100,
    moves := [] }

def tackle : Move :=
  { id := some "Tackle", type := some "Normal", category := MoveCategory.physical,
    base_power := 90, priority := 0 }

def attackerA : Pokemon := { plainMon with stats := { basicStats with atk := some 300 } }

def defenderA : Pokemon := plainMon

def oppMove : Move :=
  { id := some "Surf", type := some "Water", category := MoveCategory.physical,
    base_power := 50, priority := 0 }

def oppMon : Pokemon := { plainMon with moves := [oppMove] }

def toxic : Move :=
  { id := some "Toxic", type := some "Poison", category := MoveCategory.status,
    base_power := 0, priority := 0 }

def recover : Move :=
  { id := some "Recover", type := some "Normal", category := MoveCategory.status,
    base_power := 0, priority := 0 }

def weakMove : Move :=
  { id := some "Pound", type := some "Water", category := MoveCategory.physical,
    base_power := 10, priority := 0 }

/-- An acting side with a damaging, a status and a healing move, low health and a
weak offensive stat, facing a threatening opponent with no available switches. -/
def playerOneStats : StatTable := { basicStats with atk := some 1 }

def player1 : Pokemon :=
  { plainMon with
    current_hp := 10, stats := playerOneStats, moves := [weakMove, toxic, recover] }

def battle1c : Battle :=
  { active_pokemon := some player1, opponent_active_pokemon := some oppMon,
    weather := Weather.clearskies, available_switches := [] }

def monWithStatusMove : Pokemon := { plainMon with moves := [toxic] }

def faintedMon : Pokemon := { plainMon with current_hp := 0 }

def battleFaint : Battle :=
  { active_pokemon := some monWithStatusMove, opponent_active_pokemon := some faintedMon,
    weather := Weather.clearskies, available_switches := [] }

def healerMon : Pokemon := { plainMon with current_hp := 70, moves := [recover] }

def mkBp (p : Nat) : Move :=
  { id := some "Slam", type := some "Water", category := MoveCategory.physical,
    base_power := p, priority := 0 }

def monL10 : Pokemon :=
  { plainMon with level := 10, stats := ⟨some 50, some 50, some 50, some 50, some 50⟩ }

def stormThrow : Move :=
  { id := some "Storm Throw", type := some "Fighting", category := MoveCategory.physical,
    base_power := 60, priority := 0 }

def struggle : Move :=
  { id := some "Struggle", type := some "Typeless", category := MoveCategory.physical,
    base_power := 50, priority := 0 }

def ember : Move :=
  { id := some "Ember", type := some "Fire", category := MoveCategory.physical,
    base_power := 40, priority := 0 }

def defenderPressure : Pokemon := { plainMon with ability := some "Pressure" }

/-- The effective defensive stats and maximum health a combatant contributes as a
division denominator somewhere in the scorer pipeline. -/
def wf_combatant (p : Pokemon) : Prop :=
  0 < p.max_hp ∧
  0 < statOrBase p.stats.defn p.base_stats.defn ∧
  0 < statOrBase p.stats.spd p.base_stats.spd

instance (p : Pokemon) : Decidable (wf_combatant p) := by
  unfold wf_combatant
  infer_instance

/-! Helper lemmas about the `Except` plumbing and products. -/

theorem ebind_ok {α β : Type} (a : α) (f : α → Except String β) :
    (Except.ok a >>= f) = f a := rfl

theorem ebind_err {α β : Type} (e : String) (f : α → Except String β) :
    ((Except.error e : Except String α) >>= f) = Except.error e := rfl

theorem emap_ok {α β : Type} (a : α) (f : α → β) :
    (Except.ok a : Except String α).map f = Except.ok (f a) := rfl

theorem foldl_mul_zero (l : List ℚ) : l.foldl (· * ·) 0 = 0 := by
  induction l with
  | nil => rfl
  | cons x xs ih => simp only [List.foldl_cons, zero_mul, ih]

/-- Unfolding of the estimator when attacker, defender and move are all present. -/
theorem damage_some_eq (tc : TypeChart) (a d : Pokemon) (m : Move) (w : Weather) :
    calculate_expected_damage tc (some a) (some d) (some m) w =
      if m.category = MoveCategory.physical ∨ m.category = MoveCategory.special then
        if m.base_power = 0 then Except.ok 0
        else
          calculate_base a d m >>= fun base =>
            Except.ok (base * (modifiers_list tc a d m w).foldl (· * ·) 1)
      else Except.ok 0 := rfl

/-- If the weather modifier vanishes, any successfully computed damage is 0. -/
theorem damage_zero_of_weather_zero (tc : TypeChart) (a d : Pokemon) (m : Move)
    (w : Weather) (v : ℚ) (hw : calculate_weather_bonus m w = 0)
    (h : calculate_expected_damage tc (some a) (some d) (some m) w = Except.ok v) :
    v = 0 := by
  rw [damage_some_eq] at h
  by_cases hcat : m.category = MoveCategory.physical ∨ m.category = MoveCategory.special
  · rw [if_pos hcat] at h
    by_cases hbp : m.base_power = 0
    · rw [if_pos hbp] at h
      exact (Except.ok.inj h).symm
    · rw [if_neg hbp] at h
      cases hb : calculate_base a d m with
      | error e => rw [hb, ebind_err] at h; cases h
      | ok b =>
        rw [hb, ebind_ok] at h
        have hv := (Except.ok.inj h).symm
        rw [hv]
        have hz : (modifiers_list tc a d m w).foldl (· * ·) 1 = 0 := by
          simp only [modifiers_list, List.foldl_cons, List.foldl_nil, hw, zero_mul,
            mul_zero, one_mul]
        rw [hz, mul_zero]
  · rw [if_neg hcat] at h
    exact (Except.ok.inj h).symm

/-- Claim C9: Scenario A. A level-100 attacker using a 90-base-power physical move with
attack stat 300 against a defender with defense stat 100, no weather, no special
abilities, items, effects or status, a STAB type match and a neutral type chart yields
exactly 228.8 × 1.5 × 0.925 = 317.46. -/
theorem claim_C9 :
    calculate_expected_damage tcOne (some attackerA) (some defenderA) (some tackle)
      Weather.clearskies = Except.ok (228.8 * 1.5 * 0.925) := by
  norm_num [calculate_expected_damage, calculate_base, calculate_attack_defense_ratio,
    calculate_level_ratio, statOrBase, modifiers_list, calculate_weather_bonus,
    calculate_glaive_bonus, calculate_determined_critical_hit, calculate_burn_factor,
    calculate_stab, calculate_type_effectiveness, effectiveness_against,
    fetch_move_type, fetch_move_name, fetch_pokemon_types, tcOne, attackerA, defenderA,
    plainMon, tackle, basicStats, basicBase, GUARANTEED_CRITICAL_MOVES, HEALING_MOVES,
    ebind_ok]
  simp

/-- Claim C5: `estimate_damage` returns exactly 0, raising nothing, when the attacker,
defender or move is absent, or the move's category is non-damaging (status), or its
base power is 0. -/
theorem claim_C5 (tc : TypeChart) (attacker defender : Option Pokemon) (mv : Option Move)
    (weather : Weather)
    (h : attacker = none ∨ defender = none ∨ mv = none ∨
      ∃ m, mv = some m ∧ (m.category = MoveCategory.status ∨ m.base_power = 0)) :
    calculate_expected_damage tc attacker defender mv weather = Except.ok 0 := by
  rcases h with rfl | rfl | rfl | ⟨m, rfl, hm⟩
  · cases defender <;> cases mv <;> rfl
  · cases attacker <;> cases mv <;> rfl
  · cases attacker <;> cases defender <;> rfl
  · cases attacker with
    | none => cases defender <;> rfl
    | some a =>
      cases defender with
      | none => rfl
      | some d =>
        rcases hm with hc | hp
        · simp [calculate_expected_damage, hc]
        · simp [calculate_expected_damage, hp]

/-- Witness for C5 at a concrete status move. -/
theorem claim_C5_witness :
    calculate_expected_damage tcOne (some plainMon) (some plainMon) (some toxic)
      Weather.clearskies = Except.ok 0 :=
  claim_C5 tcOne (some plainMon) (some plainMon) (some toxic) Weather.clearskies
    (Or.inr (Or.inr (Or.inr ⟨toxic, rfl, Or.inl rfl⟩)))

/-- Claim C6: a fire-type move under intensified rain, and a water-type move under
intensified sun, deal exactly 0 damage whenever the estimator returns, regardless of
every other modifier. -/
theorem claim_C6 (tc : TypeChart) (a d : Pokemon) (m : Move) (v : ℚ) :
    (fetch_move_type m = "Fire" →
      calculate_expected_damage tc (some a) (some d) (some m) Weather.primordialsea =
        Except.ok v → v = 0) ∧
    (fetch_move_type m = "Water" →
      calculate_expected_damage tc (some a) (some d) (some m) Weather.desolateland =
        Except.ok v → v = 0) := by
  constructor
  · intro hty h
    refine damage_zero_of_weather_zero tc a d m Weather.primordialsea v ?_ h
    simp [calculate_weather_bonus, hty]
  · intro hty h
    refine damage_zero_of_weather_zero tc a d m Weather.desolateland v ?_ h
    simp [calculate_weather_bonus, hty]

/-- Witness for C6 at a concrete fire move under intensified rain. -/
theorem claim_C6_witness :
    calculate_expected_damage tcOne (some plainMon) (some plainMon) (some ember)
      Weather.primordialsea = Except.ok 0 ∧ (0 : ℚ) = 0 := by
  have h : calculate_expected_damage tcOne (some plainMon) (some plainMon) (some ember)
      Weather.primordialsea = Except.ok 0 := by
    norm_num [calculate_expected_damage, calculate_base, calculate_attack_defense_ratio,
      calculate_level_ratio, statOrBase, modifiers_list, calculate_weather_bonus,
      calculate_glaive_bonus, calculate_determined_critical_hit, calculate_burn_factor,
      calculate_stab, calculate_type_effectiveness, effectiveness_against,
      fetch_move_type, fetch_move_name, fetch_pokemon_types, tcOne, plainMon, ember,
      basicStats, basicBase, GUARANTEED_CRITICAL_MOVES, HEALING_MOVES, ebind_ok]
    try simp
  exact ⟨h, (claim_C6 tcOne plainMon plainMon ember 0).1 rfl h⟩

/-- Unfolding of the heal value at a present healer. -/
theorem heal_value_some_eq (healer : Pokemon) :
    calculate_heal_value (some healer) =
      match calculate_anticipated_healing_move healer with
      | some best_move =>
        if healer.max_hp = 0 then Except.error "ZeroDivisionError"
        else Except.ok (calculate_expected_healing healer best_move / (healer.max_hp : ℚ))
      | none => Except.ok 0 := rfl

theorem pymaxBy_mem {α : Type} (key : α → ℚ) (best : α) (xs : List α) :
    pymaxBy key best xs ∈ best :: xs := by
  induction xs generalizing best with
  | nil => simp [pymaxBy]
  | cons x xs ih =>
    rw [pymaxBy]
    by_cases hc : key x > key best
    · rw [if_pos hc]
      have h := ih x
      simp only [List.mem_cons] at h ⊢
      tauto
    · rw [if_neg hc]
      have h := ih best
      simp only [List.mem_cons] at h ⊢
      tauto

/-- Claim C7: the STAB modifier is 1 for a typeless move; for a non-transformed
attacker it is 2 on a type match with the boosting ability, 1.5 on a match without it,
1 otherwise; for a transformed attacker whose transformed type equals both the move's
type and one of its original types it is 2.25 with the boosting ability, else 2. -/
theorem claim_C7 (a : Pokemon) (m : Move) :
    (fetch_move_type m = "Typeless" → calculate_stab a m = 1) ∧
    (fetch_move_type m ≠ "Typeless" → a.is_terastallized = false →
      ((a.ability = some "Adaptability" → fetch_move_type m ∈ fetch_pokemon_types a →
          calculate_stab a m = 2) ∧
       (a.ability ≠ some "Adaptability" → fetch_move_type m ∈ fetch_pokemon_types a →
          calculate_stab a m = 1.5) ∧
       (fetch_move_type m ∉ fetch_pokemon_types a → calculate_stab a m = 1))) ∧
    (fetch_move_type m ≠ "Typeless" → a.is_terastallized = true →
      a.tera_type = some (fetch_move_type m) → fetch_move_type m ∈ fetch_pokemon_types a →
      ((a.ability = some "Adaptability" → calculate_stab a m = 2.25) ∧
       (a.ability ≠ some "Adaptability" → calculate_stab a m = 2))) := by
  refine ⟨?_, ?_, ?_⟩
  · intro h
    simp [calculate_stab, h]
  · intro hne hT
    refine ⟨?_, ?_, ?_⟩
    · intro hab hmem
      simp [calculate_stab, hne, hT, hab, hmem]
    · intro hab hmem
      simp [calculate_stab, hne, hT, hab, hmem]
    · intro hmem
      simp [calculate_stab, hne, hT, hmem]
  · intro hne hT htt hmem
    constructor
    · intro hab
      simp [calculate_stab, hne, hT, htt, hmem, hab]
    · intro hab
      simp [calculate_stab, hne, hT, htt, hmem, hab]

/-- Witness for C7 at a concrete typeless move. -/
theorem claim_C7_witness :
    fetch_move_type struggle = "Typeless" ∧ calculate_stab plainMon struggle = 1 :=
  ⟨rfl, (claim_C7 plainMon struggle).1 rfl⟩

/-- Counterexample to C2 as stated: the defender has no crit-negating ability (it has
no ability at all), the move is on the always-critical list, yet the modifier is 1
rather than 1.5 — the code returns early whenever the defender has no ability. -/
theorem claim_C2_counterexample :
    plainMon.ability = none ∧
    fetch_move_name stormThrow ∈ GUARANTEED_CRITICAL_MOVES ∧
    calculate_determined_critical_hit plainMon plainMon stormThrow = 1 ∧
    (1 : ℚ) ≠ 1.5 := by
  refine ⟨rfl, by decide, rfl, by norm_num⟩

/-- Claim C2 (amended): the critical-hit modifier is 1 whenever the defender has no
ability; given an ability, the anti-critical abilities anchor 1; otherwise an
always-critical move scores 1.5; otherwise a status-free defender anchors 1; given a
status, poison against a Merciless attacker scores 1.5, then Laser Focus scores 1.5,
else 1. -/
theorem claim_C2_amended (a d : Pokemon) (m : Move) :
    (d.ability = none → calculate_determined_critical_hit a d m = 1) ∧
    (∀ ab, d.ability = some ab →
      ((ab = "Battle Armor" ∨ ab = "Shell Armor") →
        calculate_determined_critical_hit a d m = 1) ∧
      (ab ≠ "Battle Armor" → ab ≠ "Shell Armor" →
        ((fetch_move_name m ∈ GUARANTEED_CRITICAL_MOVES →
          calculate_determined_critical_hit a d m = 1.5) ∧
         (fetch_move_name m ∉ GUARANTEED_CRITICAL_MOVES →
          ((d.status = none → calculate_determined_critical_hit a d m = 1) ∧
           (∀ st, d.status = some st →
            ((st = Status.psn ∧ a.ability = some "Merciless") →
              calculate_determined_critical_hit a d m = 1.5) ∧
            (¬(st = Status.psn ∧ a.ability = some "Merciless") →
              Effect.laserFocus ∈ a.effects →
              calculate_determined_critical_hit a d m = 1.5) ∧
            (¬(st = Status.psn ∧ a.ability = some "Merciless") →
              Effect.laserFocus ∉ a.effects →
              calculate_determined_critical_hit a d m = 1))))))) := by
  constructor
  · intro h
    simp [calculate_determined_critical_hit, h]
  · intro ab hab
    constructor
    · intro hbs
      simp [calculate_determined_critical_hit, hab, hbs]
    · intro hb hs
      have hcond : ¬(ab = "Battle Armor" ∨ ab = "Shell Armor") := by tauto
      constructor
      · intro hm
        simp [calculate_determined_critical_hit, hab, hcond, hm]
      · intro hm
        constructor
        · intro hst
          simp [calculate_determined_critical_hit, hab, hcond, hm, hst]
        · intro st hst
          refine ⟨?_, ?_, ?_⟩
          · intro hpm
            simp [calculate_determined_critical_hit, hab, hcond, hm, hst, hpm]
          · intro hpm hlf
            simp [calculate_determined_critical_hit, hab, hcond, hm, hst, hpm, hlf]
          · intro hpm hlf
            simp [calculate_determined_critical_hit, hab, hcond, hm, hst, hpm, hlf]

/-- Witness for C2 (amended): a defender with a non-negating ability facing an
always-critical move scores 1.5. -/
theorem claim_C2_witness :
    calculate_determined_critical_hit plainMon defenderPressure stormThrow = 1.5 := by
  have h := (claim_C2_amended plainMon defenderPressure stormThrow).2 "Pressure" rfl
  exact (h.2 (by decide) (by decide)).1 (by decide)

/-- Claim C4: the action chosen by Python's first-max over the source-ordered list
[switch, attack, status, heal] carries the maximal weighted score, its score is its own
category's score, and a later category is chosen only when its score strictly exceeds
every earlier one (ties go to the earlier category). -/
theorem claim_C4 (switch_score attack_score status_score heal_score : ℚ) :
    (switch_score ≤ (best_action switch_score attack_score status_score heal_score).score ∧
     attack_score ≤ (best_action switch_score attack_score status_score heal_score).score ∧
     status_score ≤ (best_action switch_score attack_score status_score heal_score).score ∧
     heal_score ≤ (best_action switch_score attack_score status_score heal_score).score) ∧
    ((best_action switch_score attack_score status_score heal_score).score =
      (match (best_action switch_score attack_score status_score heal_score).type with
        | ActionType.SWITCH => switch_score
        | ActionType.ATTACK => attack_score
        | ActionType.STATUS => status_score
        | ActionType.HEAL => heal_score)) ∧
    (((best_action switch_score attack_score status_score heal_score).type =
        ActionType.ATTACK → switch_score < attack_score) ∧
     ((best_action switch_score attack_score status_score heal_score).type =
        ActionType.STATUS → switch_score < status_score ∧ attack_score < status_score) ∧
     ((best_action switch_score attack_score status_score heal_score).type =
        ActionType.HEAL →
        switch_score < heal_score ∧ attack_score < heal_score ∧ status_score < heal_score)) := by
  unfold best_action
  simp only [pymaxBy]
  split_ifs <;>
    refine ⟨⟨?_, ?_, ?_, ?_⟩, ?_, ?_, ?_, ?_⟩ <;>
    first
      | rfl
      | linarith
      | (intro h; exact absurd h (by decide))
      | (intro h; constructor <;> linarith)
      | (intro h; refine ⟨?_, ?_, ?_⟩ <;> linarith)
      | (intro h; linarith)

/-- Witness for C4: with scores 1 < 2 < 3 < 4 the heal category wins strictly. -/
theorem claim_C4_witness : (1 : ℚ) < 4 ∧ (2 : ℚ) < 4 ∧ (3 : ℚ) < 4 := by
  have ht : (best_action 1 2 3 4).type = ActionType.HEAL := by
    norm_num [best_action, pymaxBy]
  exact ((claim_C4 1 2 3 4).2.2).2.2 ht

/-- Claim C10: the full-restore move Rest is not in the recognized healing-move set, so
for any combatant with positive maximum health and current health within bounds, a
successfully computed heal sub-score lies in [0, 1/2]. -/
theorem claim_C10 :
    "Rest" ∉ HEALING_MOVES ∧
    ∀ (healer : Pokemon) (v : ℚ), 0 < healer.max_hp → healer.current_hp ≤ healer.max_hp →
      calculate_heal_value (some healer) = Except.ok v → 0 ≤ v ∧ v ≤ 1 / 2 := by
  constructor
  · decide
  · intro healer v hmax hcur h
    rw [heal_value_some_eq] at h
    cases hb : calculate_anticipated_healing_move healer with
    | none =>
      simp only [hb] at h
      have hv := (Except.ok.inj h).symm
      rw [hv]
      norm_num
    | some bm =>
      simp only [hb] at h
      rw [if_neg (by omega : ¬healer.max_hp = 0)] at h
      have hv := (Except.ok.inj h).symm
      have hmem : bm ∈ fetch_healing_moves healer := by
        unfold calculate_anticipated_healing_move at hb
        cases hh : fetch_healing_moves healer with
        | nil => rw [hh] at hb; cases hb
        | cons m ms =>
          rw [hh] at hb
          have hmm := pymaxBy_mem (calculate_expected_healing healer) m ms
          have hbm := Option.some.inj hb
          exact hbm ▸ hmm
      have hname : fetch_move_name bm ∈ HEALING_MOVES := by
        unfold fetch_healing_moves at hmem
        have hpred := (List.mem_filter.mp hmem).2
        simp at hpred
        exact hpred.2
      have hrest : fetch_move_name bm ≠ "Rest" := by
        intro hcontra
        rw [hcontra] at hname
        exact absurd hname (by decide)
      have hmaxQ : (0 : ℚ) < (healer.max_hp : ℚ) := by exact_mod_cast hmax
      have hcurQ : (healer.current_hp : ℚ) ≤ (healer.max_hp : ℚ) := by exact_mod_cast hcur
      rw [hv]
      unfold calculate_expected_healing
      rw [if_neg hrest]
      constructor
      · apply div_nonneg _ hmaxQ.le
        apply le_min
        · linarith
        · positivity
      · have hle : min ((healer.max_hp : ℚ) - (healer.current_hp : ℚ))
            ((healer.max_hp : ℚ) * 0.5) ≤ (healer.max_hp : ℚ) * 0.5 := min_le_right _ _
        have h2 : ((healer.max_hp : ℚ) * 0.5) / (healer.max_hp : ℚ) = 1 / 2 := by
          rw [mul_comm, mul_div_assoc, div_self (ne_of_gt hmaxQ)]
          norm_num
        calc min ((healer.max_hp : ℚ) - (healer.current_hp : ℚ))
              ((healer.max_hp : ℚ) * 0.5) / (healer.max_hp : ℚ)
            ≤ ((healer.max_hp : ℚ) * 0.5) / (healer.max_hp : ℚ) :=
              (div_le_div_iff_of_pos_right hmaxQ).2 hle
          _ = 1 / 2 := h2

/-- Witness for C10 at a combatant holding Recover at 70/100 health. -/
theorem claim_C10_witness : 0 ≤ (3 : ℚ) / 10 ∧ (3 : ℚ) / 10 ≤ 1 / 2 := by
  have h : calculate_heal_value (some healerMon) = Except.ok (3 / 10) := by
    norm_num [calculate_heal_value, calculate_anticipated_healing_move, fetch_healing_moves,
      healerMon, plainMon, recover, fetch_move_name, calculate_expected_healing, pymaxBy,
      HEALING_MOVES, basicStats, basicBase]
    try simp
  exact claim_C10.2 healerMon (3 / 10) (by decide) (by decide) h

/-- Unfolding of the scorer when player and opponent are both present. -/
theorem most_effective_some_eq (tc : TypeChart) (battle : Battle) (player opponent : Pokemon)
    (weather : Weather) :
    calculate_most_effective_move tc battle (some player) (some opponent) weather =
      (calculate_switch_value tc battle >>= fun switch_value =>
       calculate_status_value tc (some player) (some opponent) weather >>= fun status_value =>
       calculate_attack_value tc (some player) (some opponent) weather >>= fun attack_value =>
       calculate_heal_value (some player) >>= fun heal_value =>
       (let weights := if fetch_acting_first player opponent then FIRST_ACTING_WEIGHTS
          else LAST_ACTING_WEIGHTS
        let best := best_action (switch_value * weights.switch) (attack_value * weights.attack)
          (status_value * weights.status) (heal_value * weights.heal)
        match best.type with
        | ActionType.SWITCH =>
          calculate_best_switch tc battle >>= fun s => Except.ok (s.map ChosenAction.switchTo)
        | ActionType.ATTACK =>
          calculate_anticipated_move tc player opponent weather >>= fun m =>
            Except.ok (m.map ChosenAction.useMove)
        | ActionType.STATUS =>
          calculate_anticipated_status_move tc player opponent weather >>= fun m =>
            Except.ok (m.map ChosenAction.useMove)
        | ActionType.HEAL =>
          Except.ok ((calculate_anticipated_healing_move player).map ChosenAction.useMove))) :=
  rfl

/-- The threat value of any attacker against an absent defender is 0. -/
theorem threat_none_defender (tc : TypeChart) (attacker : Option Pokemon) (w : Weather) :
    calculate_threat_value tc attacker none w = Except.ok 0 := by
  cases attacker <;> rfl

/-- Counterexample to C1 as stated: in a battle with no available switch targets, the
switch sub-score equals the (positive) current threat exposure rather than 0, the
scorer picks the switch category and hands back the no-action signal even though every
other category had a concrete candidate. -/
theorem claim_C1_counterexample :
    battle1c.available_switches = [] ∧
    calculate_switch_value tcOne battle1c = Except.ok (407 / 1000) ∧
    ((407 : ℚ) / 1000 ≠ 0) ∧
    calculate_most_effective_move tcOne battle1c (some player1) (some oppMon)
      Weather.clearskies = Except.ok none ∧
    calculate_anticipated_move tcOne player1 oppMon Weather.clearskies =
      Except.ok (some weakMove) ∧
    calculate_anticipated_status_move tcOne player1 oppMon Weather.clearskies =
      Except.ok (some toxic) ∧
    calculate_anticipated_healing_move player1 = some recover := by
  have hsw : calculate_switch_value tcOne battle1c = Except.ok (407 / 1000) := by
    norm_num [calculate_switch_value, calculate_threat_value, calculate_best_switch,
      calculate_anticipated_move, max_by_expected_damage, mapExcept, pymaxPairs, pymaxBy,
      Except.map, ebind_ok, calculate_expected_damage, calculate_base,
      calculate_attack_defense_ratio, calculate_level_ratio, statOrBase, modifiers_list,
      calculate_weather_bonus, calculate_glaive_bonus, calculate_determined_critical_hit,
      calculate_burn_factor, calculate_stab, calculate_type_effectiveness,
      effectiveness_against, fetch_move_type, fetch_move_name, fetch_pokemon_types,
      tcOne, battle1c, player1, playerOneStats, oppMon, oppMove, weakMove, toxic, recover,
      plainMon, basicStats, basicBase, GUARANTEED_CRITICAL_MOVES, HEALING_MOVES]
    try simp
    try norm_num [max_def]
  have hst : calculate_status_value tcOne (some player1) (some oppMon) Weather.clearskies =
      Except.ok (1 / 10) := by
    norm_num [calculate_status_value, calculate_anticipated_status_move,
      max_by_expected_damage, mapExcept, pymaxPairs, pymaxBy, Except.map, ebind_ok,
      fetch_status_moves, fetch_healing_moves, calculate_expected_damage, fetch_move_name,
      player1, playerOneStats, oppMon, plainMon, weakMove, toxic, recover, basicStats,
      basicBase, HEALING_MOVES, tcOne, List.erase_cons]
    try simp [ebind_ok]
    try norm_num [ebind_ok]
    try rfl
    try simp
    try norm_num
  have hat : calculate_attack_value tcOne (some player1) (some oppMon) Weather.clearskies =
      Except.ok (19277 / 1000000) := by
    norm_num [calculate_attack_value, calculate_anticipated_move, max_by_expected_damage,
      mapExcept, pymaxPairs, pymaxBy, Except.map, ebind_ok, calculate_expected_damage,
      calculate_base, calculate_attack_defense_ratio, calculate_level_ratio, statOrBase,
      modifiers_list, calculate_weather_bonus, calculate_glaive_bonus,
      calculate_determined_critical_hit, calculate_burn_factor, calculate_stab,
      calculate_type_effectiveness, effectiveness_against, fetch_move_type,
      fetch_move_name, fetch_pokemon_types, tcOne, player1, playerOneStats, oppMon,
      oppMove, weakMove, toxic, recover, plainMon, basicStats, basicBase,
      GUARANTEED_CRITICAL_MOVES, HEALING_MOVES]
    try simp [ebind_ok]
    try norm_num [ebind_ok]
    try rfl
    try simp
    try norm_num
  have hah : calculate_anticipated_healing_move player1 = some recover := rfl
  have hhe : calculate_heal_value (some player1) = Except.ok (1 / 2) := by
    simp only [heal_value_some_eq, hah]
    norm_num [calculate_expected_healing, fetch_move_name, recover, player1,
      playerOneStats, plainMon, basicStats, basicBase]
    try simp
    try norm_num
  have hmv : calculate_most_effective_move tcOne battle1c (some player1) (some oppMon)
      Weather.clearskies = Except.ok none := by
    rw [most_effective_some_eq, hsw, ebind_ok, hst, ebind_ok, hat, ebind_ok, hhe, ebind_ok]
    have hbt : (best_action (407 / 1000 * FIRST_ACTING_WEIGHTS.switch)
        (19277 / 1000000 * FIRST_ACTING_WEIGHTS.attack)
        (1 / 10 * FIRST_ACTING_WEIGHTS.status)
        (1 / 2 * FIRST_ACTING_WEIGHTS.heal)).type = ActionType.SWITCH := by
      norm_num [best_action, pymaxBy, FIRST_ACTING_WEIGHTS]
    norm_num [fetch_acting_first, maxPriority, statOrBase, player1, playerOneStats,
      oppMon, oppMove, weakMove, toxic, recover, plainMon, basicStats, basicBase, hbt,
      calculate_best_switch, battle1c, ebind_ok]
  have ham : calculate_anticipated_move tcOne player1 oppMon Weather.clearskies =
      Except.ok (some weakMove) := by
    norm_num [calculate_anticipated_move, max_by_expected_damage, mapExcept, pymaxPairs,
      pymaxBy, Except.map, ebind_ok, calculate_expected_damage, calculate_base,
      calculate_attack_defense_ratio, calculate_level_ratio, statOrBase, modifiers_list,
      calculate_weather_bonus, calculate_glaive_bonus, calculate_determined_critical_hit,
      calculate_burn_factor, calculate_stab, calculate_type_effectiveness,
      effectiveness_against, fetch_move_type, fetch_move_name, fetch_pokemon_types,
      tcOne, player1, playerOneStats, oppMon, oppMove, weakMove, toxic, recover, plainMon,
      basicStats, basicBase, GUARANTEED_CRITICAL_MOVES, HEALING_MOVES]
    try simp
    try norm_num
  exact ⟨rfl, hsw, by norm_num, hmv, ham, rfl, rfl⟩

/-- Claim C1 (amended): when the acting side has no available switch targets, the
best-switch threat term is 0, so the switch sub-score equals the current threat
exposure floored at 0 — which can be positive, letting the switch category win, in
which case the scorer yields the no-action signal. -/
theorem claim_C1_amended (tc : TypeChart) (battle : Battle) (c : ℚ)
    (hsw : battle.available_switches = [])
    (hc : calculate_threat_value tc battle.opponent_active_pokemon battle.active_pokemon
      battle.weather = Except.ok c) :
    calculate_switch_value tc battle = Except.ok (max 0 c) := by
  unfold calculate_switch_value
  rw [hc, ebind_ok]
  have hbs : calculate_best_switch tc battle = Except.ok none := by
    unfold calculate_best_switch
    rw [if_pos hsw]
  rw [hbs, ebind_ok, threat_none_defender, ebind_ok, sub_zero]

/-- Witness for C1 (amended) on the concrete no-switch battle. -/
theorem claim_C1_witness :
    calculate_switch_value tcOne battle1c = Except.ok (max 0 (407 / 1000)) := by
  apply claim_C1_amended tcOne battle1c (407 / 1000) rfl
  norm_num [calculate_threat_value, calculate_anticipated_move, max_by_expected_damage,
    mapExcept, pymaxPairs, pymaxBy, Except.map, ebind_ok, calculate_expected_damage,
    calculate_base, calculate_attack_defense_ratio, calculate_level_ratio, statOrBase,
    modifiers_list, calculate_weather_bonus, calculate_glaive_bonus,
    calculate_determined_critical_hit, calculate_burn_factor, calculate_stab,
    calculate_type_effectiveness, effectiveness_against, fetch_move_type,
    fetch_move_name, fetch_pokemon_types, tcOne, battle1c, player1, playerOneStats,
    oppMon, oppMove, weakMove, toxic, recover, plainMon, basicStats, basicBase,
    GUARANTEED_CRITICAL_MOVES, HEALING_MOVES]
  try simp
  try norm_num

/-! Nonnegativity of every modifier, and monotonicity of the estimator in base power. -/

theorem ratio_nonneg (a d : Pokemon) (m : Move) (r : ℚ)
    (h : calculate_attack_defense_ratio a d m = Except.ok r) : 0 ≤ r := by
  unfold calculate_attack_defense_ratio at h
  cases hm : m.category <;> rw [hm] at h <;> simp only [] at h
  · by_cases hden : statOrBase d.stats.defn d.base_stats.defn = 0
    · rw [if_pos hden] at h; cases h
    · rw [if_neg hden] at h
      have := (Except.ok.inj h).symm
      rw [this]
      positivity
  · by_cases hden : statOrBase d.stats.spd d.base_stats.spd = 0
    · rw [if_pos hden] at h; cases h
    · rw [if_neg hden] at h
      have := (Except.ok.inj h).symm
      rw [this]
      positivity
  · have := (Except.ok.inj h).symm
    rw [this]
    norm_num

theorem weather_bonus_nonneg (m : Move) (w : Weather) : 0 ≤ calculate_weather_bonus m w := by
  unfold calculate_weather_bonus
  cases w <;> dsimp only
  all_goals try split_ifs
  all_goals norm_num

theorem glaive_bonus_nonneg (d : Pokemon) : 0 ≤ calculate_glaive_bonus d := by
  unfold calculate_glaive_bonus
  split_ifs <;> norm_num

theorem crit_nonneg (a d : Pokemon) (m : Move) :
    0 ≤ calculate_determined_critical_hit a d m := by
  unfold calculate_determined_critical_hit
  cases d.ability <;> cases d.status <;> dsimp only
  all_goals try split_ifs
  all_goals norm_num

theorem burn_factor_nonneg (a : Pokemon) (m : Move) : 0 ≤ calculate_burn_factor a m := by
  unfold calculate_burn_factor
  split_ifs <;> norm_num

theorem stab_nonneg (a : Pokemon) (m : Move) : 0 ≤ calculate_stab a m := by
  unfold calculate_stab
  dsimp only
  split_ifs <;> norm_num

set_option maxHeartbeats 1600000 in
theorem effectiveness_against_nonneg (tc : TypeChart) (a d : Pokemon) (m : Move)
    (dt : String) (htc : ∀ x y, 0 ≤ tc x y) : 0 ≤ effectiveness_against tc a d m dt := by
  unfold effectiveness_against
  dsimp only
  split_ifs
  all_goals first
    | exact htc _ _
    | exact mul_nonneg (htc _ _) (htc _ _)
    | norm_num

theorem foldl_mul_nonneg_of (f : String → ℚ) (l : List String) (acc : ℚ)
    (hacc : 0 ≤ acc) (hf : ∀ x, 0 ≤ f x) :
    0 ≤ l.foldl (fun multi dt => multi * f dt) acc := by
  induction l generalizing acc with
  | nil => simpa using hacc
  | cons x xs ih => exact ih _ (mul_nonneg hacc (hf x))

theorem type_effectiveness_nonneg (tc : TypeChart) (a d : Pokemon) (m : Move)
    (w : Weather) (htc : ∀ x y, 0 ≤ tc x y) :
    0 ≤ calculate_type_effectiveness tc a d m w := by
  unfold calculate_type_effectiveness
  exact foldl_mul_nonneg_of _ _ 1 zero_le_one
    (fun dt => effectiveness_against_nonneg tc a d m dt htc)

theorem modifiers_product_nonneg (tc : TypeChart) (a d : Pokemon) (m : Move)
    (w : Weather) (htc : ∀ x y, 0 ≤ tc x y) :
    0 ≤ (modifiers_list tc a d m w).foldl (· * ·) 1 := by
  simp only [modifiers_list, List.foldl_cons, List.foldl_nil]
  exact mul_nonneg (mul_nonneg (mul_nonneg (mul_nonneg (mul_nonneg (mul_nonneg
    (mul_nonneg zero_le_one (weather_bonus_nonneg m w)) (glaive_bonus_nonneg d))
    (crit_nonneg a d m)) (by norm_num)) (stab_nonneg a m))
    (type_effectiveness_nonneg tc a d m w htc)) (burn_factor_nonneg a m)

/-- A successful damage computation on a damaging move with nonzero base power exposes
the attack/defense ratio and the multiplicative shape of the result. -/
theorem damage_ok_inv (tc : TypeChart) (a d : Pokemon) (m : Move) (w : Weather) (v : ℚ)
    (hcat : m.category = MoveCategory.physical ∨ m.category = MoveCategory.special)
    (hbp : m.base_power ≠ 0)
    (h : calculate_expected_damage tc (some a) (some d) (some m) w = Except.ok v) :
    ∃ r, calculate_attack_defense_ratio a d m = Except.ok r ∧
      v = (calculate_level_ratio a * (m.base_power : ℚ) * r / 50 + 2) *
        (modifiers_list tc a d m w).foldl (· * ·) 1 := by
  rw [damage_some_eq, if_pos hcat, if_neg hbp] at h
  cases hr : calculate_attack_defense_ratio a d m with
  | error e =>
    have hbase : calculate_base a d m = Except.error e := by
      unfold calculate_base
      rw [hr]
      rfl
    rw [hbase, ebind_err] at h
    cases h
  | ok r =>
    have hbase : calculate_base a d m =
        Except.ok (calculate_level_ratio a * (m.base_power : ℚ) * r / 50 + 2) := by
      unfold calculate_base
      rw [hr]
      rfl
    rw [hbase, ebind_ok] at h
    exact ⟨r, rfl, (Except.ok.inj h).symm⟩

theorem update_bp_category (m : Move) (p : Nat) :
    ({ m with base_power := p } : Move).category = m.category := rfl

theorem update_bp_power (m : Move) (p : Nat) :
    ({ m with base_power := p } : Move).base_power = p := rfl

theorem modifiers_list_bp (tc : TypeChart) (a d : Pokemon) (m : Move) (w : Weather)
    (p : Nat) :
    modifiers_list tc a d { m with base_power := p } w = modifiers_list tc a d m w := rfl

theorem ratio_bp (a d : Pokemon) (m : Move) (p : Nat) :
    calculate_attack_defense_ratio a d { m with base_power := p } =
      calculate_attack_defense_ratio a d m := rfl

theorem level_ratio_nonneg (a : Pokemon) : 0 ≤ calculate_level_ratio a := by
  unfold calculate_level_ratio
  positivity

/-- Claim C8: with a nonnegative type chart and all other inputs fixed, the estimator
is monotonically non-decreasing in the move's base power, including across the
base-power-0 short-circuit. -/
theorem claim_C8 (tc : TypeChart) (a d : Pokemon) (m : Move) (w : Weather)
    (p1 p2 : Nat) (v1 v2 : ℚ)
    (htc : ∀ x y, 0 ≤ tc x y) (hp : p1 ≤ p2)
    (h1 : calculate_expected_damage tc (some a) (some d)
      (some { m with base_power := p1 }) w = Except.ok v1)
    (h2 : calculate_expected_damage tc (some a) (some d)
      (some { m with base_power := p2 }) w = Except.ok v2) :
    v1 ≤ v2 := by
  have hP : 0 ≤ (modifiers_list tc a d m w).foldl (· * ·) 1 :=
    modifiers_product_nonneg tc a d m w htc
  by_cases hcat : m.category = MoveCategory.physical ∨ m.category = MoveCategory.special
  · by_cases hp2 : p2 = 0
    · have hp1 : p1 = 0 := by omega
      rw [damage_some_eq] at h1 h2
      simp only [update_bp_category, update_bp_power] at h1 h2
      rw [if_pos hcat, if_pos hp1] at h1
      rw [if_pos hcat, if_pos hp2] at h2
      rw [← Except.ok.inj h1, ← Except.ok.inj h2]
    · by_cases hp1 : p1 = 0
      · rw [damage_some_eq] at h1
        simp only [update_bp_category, update_bp_power] at h1
        rw [if_pos hcat, if_pos hp1] at h1
        rw [← Except.ok.inj h1]
        obtain ⟨r, hr, hv2⟩ := damage_ok_inv tc a d { m with base_power := p2 } w v2
          (by simp only [update_bp_category]; exact hcat)
          (by simp only [update_bp_power]; exact hp2) h2
        rw [hv2, modifiers_list_bp]
        have hrn : 0 ≤ r := ratio_nonneg a d _ r hr
        have hlr : 0 ≤ calculate_level_ratio a := level_ratio_nonneg a
        apply mul_nonneg _ hP
        have hb : 0 ≤ calculate_level_ratio a *
            (({ m with base_power := p2 } : Move).base_power : ℚ) * r / 50 := by
          apply div_nonneg _ (by norm_num)
          exact mul_nonneg (mul_nonneg hlr (by positivity)) hrn
        linarith
      · obtain ⟨r1, hr1, hv1⟩ := damage_ok_inv tc a d { m with base_power := p1 } w v1
          (by simp only [update_bp_category]; exact hcat)
          (by simp only [update_bp_power]; exact hp1) h1
        obtain ⟨r2, hr2, hv2⟩ := damage_ok_inv tc a d { m with base_power := p2 } w v2
          (by simp only [update_bp_category]; exact hcat)
          (by simp only [update_bp_power]; exact hp2) h2
        have hr12 : r1 = r2 := by
          rw [ratio_bp] at hr1 hr2
          rw [hr1] at hr2
          exact Except.ok.inj hr2
        have hrn : 0 ≤ r2 := by
          rw [ratio_bp] at hr2
          exact ratio_nonneg a d m r2 hr2
        have hlr : 0 ≤ calculate_level_ratio a := level_ratio_nonneg a
        rw [hv1, hv2, hr12, modifiers_list_bp, modifiers_list_bp]
        simp only [update_bp_power]
        apply mul_le_mul_of_nonneg_right _ hP
        have hpq : (p1 : ℚ) ≤ (p2 : ℚ) := by exact_mod_cast hp
        have hnum : calculate_level_ratio a * (p1 : ℚ) * r2 ≤
            calculate_level_ratio a * (p2 : ℚ) * r2 := by
          apply mul_le_mul_of_nonneg_right _ hrn
          exact mul_le_mul_of_nonneg_left hpq hlr
        have hdiv : calculate_level_ratio a * (p1 : ℚ) * r2 / 50 ≤
            calculate_level_ratio a * (p2 : ℚ) * r2 / 50 := by
          apply div_le_div_of_nonneg_right hnum -- may need rename
          norm_num
        linarith
  · rw [damage_some_eq] at h1 h2
    simp only [update_bp_category, update_bp_power] at h1 h2
    rw [if_neg hcat] at h1 h2
    rw [← Except.ok.inj h1, ← Except.ok.inj h2]

/-- Witness for C8: base powers 50 ≤ 100 on a concrete pair give 7.4 ≤ 12.95. -/
theorem claim_C8_witness : (37 : ℚ) / 5 ≤ 259 / 20 := by
  have h1 : calculate_expected_damage tcOne (some monL10) (some monL10)
      (some { mkBp 0 with base_power := 50 }) Weather.clearskies = Except.ok (37 / 5) := by
    norm_num [calculate_expected_damage, calculate_base, calculate_attack_defense_ratio,
      calculate_level_ratio, statOrBase, modifiers_list, calculate_weather_bonus,
      calculate_glaive_bonus, calculate_determined_critical_hit, calculate_burn_factor,
      calculate_stab, calculate_type_effectiveness, effectiveness_against,
      fetch_move_type, fetch_move_name, fetch_pokemon_types, tcOne, monL10, mkBp,
      plainMon, basicStats, basicBase, GUARANTEED_CRITICAL_MOVES, HEALING_MOVES, ebind_ok]
    try simp
    try norm_num
  have h2 : calculate_expected_damage tcOne (some monL10) (some monL10)
      (some { mkBp 0 with base_power := 100 }) Weather.clearskies =
      Except.ok (259 / 20) := by
    norm_num [calculate_expected_damage, calculate_base, calculate_attack_defense_ratio,
      calculate_level_ratio, statOrBase, modifiers_list, calculate_weather_bonus,
      calculate_glaive_bonus, calculate_determined_critical_hit, calculate_burn_factor,
      calculate_stab, calculate_type_effectiveness, effectiveness_against,
      fetch_move_type, fetch_move_name, fetch_pokemon_types, tcOne, monL10, mkBp,
      plainMon, basicStats, basicBase, GUARANTEED_CRITICAL_MOVES, HEALING_MOVES, ebind_ok]
    try simp
    try norm_num
  exact claim_C8 tcOne monL10 monL10 (mkBp 0) Weather.clearskies 50 100 (37 / 5) (259 / 20)
    (fun _ _ => zero_le_one) (by norm_num) h1 h2

/-! Success (no-exception) analysis of the scorer pipeline. -/

theorem threat_none_attacker (tc : TypeChart) (defender : Option Pokemon) (w : Weather) :
    calculate_threat_value tc none defender w = Except.ok 0 := by
  cases defender <;> rfl

theorem threat_some_eq (tc : TypeChart) (a d : Pokemon) (w : Weather) :
    calculate_threat_value tc (some a) (some d) w =
      (calculate_anticipated_move tc a d w >>= fun best_move =>
       calculate_expected_damage tc (some a) (some d) best_move w >>= fun expected_damage =>
       if d.max_hp = 0 then Except.error "ZeroDivisionError"
       else Except.ok (expected_damage / (d.max_hp : ℚ))) := rfl

theorem attack_value_some_eq (tc : TypeChart) (a d : Pokemon) (w : Weather) :
    calculate_attack_value tc (some a) (some d) w =
      (calculate_anticipated_move tc a d w >>= fun best_move =>
       calculate_expected_damage tc (some a) (some d) best_move w >>= fun expected_damage =>
       if d.max_hp = 0 then Except.error "ZeroDivisionError"
       else Except.ok (expected_damage / (d.max_hp : ℚ))) := rfl

theorem status_value_some_eq (tc : TypeChart) (a d : Pokemon) (w : Weather) :
    calculate_status_value tc (some a) (some d) w =
      (calculate_anticipated_status_move tc a d w >>= fun anticipated =>
       match anticipated with
       | some _ =>
         if d.current_hp = 0 then Except.error "ZeroDivisionError"
         else Except.ok ((a.current_hp : ℚ) / (d.current_hp : ℚ))
       | none => Except.ok 0) := rfl

theorem ratio_isOk (a d : Pokemon) (m : Move)
    (hdef : statOrBase d.stats.defn d.base_stats.defn ≠ 0)
    (hspd : statOrBase d.stats.spd d.base_stats.spd ≠ 0) :
    ∃ r, calculate_attack_defense_ratio a d m = Except.ok r := by
  unfold calculate_attack_defense_ratio
  cases m.category <;> dsimp only
  · rw [if_neg hdef]
    exact ⟨_, rfl⟩
  · rw [if_neg hspd]
    exact ⟨_, rfl⟩
  · exact ⟨1, rfl⟩

theorem damage_isOk (tc : TypeChart) (a d : Pokemon) (mv : Option Move) (w : Weather)
    (hdef : statOrBase d.stats.defn d.base_stats.defn ≠ 0)
    (hspd : statOrBase d.stats.spd d.base_stats.spd ≠ 0) :
    ∃ v, calculate_expected_damage tc (some a) (some d) mv w = Except.ok v := by
  cases mv with
  | none => exact ⟨0, rfl⟩
  | some m =>
    rw [damage_some_eq]
    by_cases hcat : m.category = MoveCategory.physical ∨ m.category = MoveCategory.special
    · by_cases hbp : m.base_power = 0
      · rw [if_pos hcat, if_pos hbp]
        exact ⟨0, rfl⟩
      · rw [if_pos hcat, if_neg hbp]
        obtain ⟨r, hr⟩ := ratio_isOk a d m hdef hspd
        have hbase : calculate_base a d m =
            Except.ok (calculate_level_ratio a * (m.base_power : ℚ) * r / 50 + 2) := by
          unfold calculate_base
          rw [hr]
          rfl
        rw [hbase, ebind_ok]
        exact ⟨_, rfl⟩
    · rw [if_neg hcat]
      exact ⟨0, rfl⟩

theorem damage_status_zero (tc : TypeChart) (a d : Pokemon) (m : Move) (w : Weather)
    (hm : m.category = MoveCategory.status) :
    calculate_expected_damage tc (some a) (some d) (some m) w = Except.ok 0 := by
  rw [damage_some_eq, if_neg]
  rw [hm]
  intro hc
  rcases hc with hc | hc <;> cases hc

theorem foldl_erase_subset {α : Type} [DecidableEq α] (hl : List α) (start base : List α)
    (hs : start ⊆ base) :
    (hl.foldl (fun sm mv => if mv ∈ sm then sm.erase mv else sm) start) ⊆ base := by
  induction hl generalizing start with
  | nil => simpa using hs
  | cons x xs ih =>
    simp only [List.foldl_cons]
    apply ih
    by_cases hx : x ∈ start
    · rw [if_pos hx]
      intro y hy
      exact hs (List.mem_of_mem_erase hy)
    · rw [if_neg hx]
      exact hs

theorem status_move_category (p : Pokemon) (m : Move) (hm : m ∈ fetch_status_moves p) :
    m.category = MoveCategory.status := by
  unfold fetch_status_moves at hm
  have hsub := foldl_erase_subset (fetch_healing_moves p)
    (p.moves.filter (fun mv => mv.category = MoveCategory.status))
    (p.moves.filter (fun mv => mv.category = MoveCategory.status))
    (fun y hy => hy)
  have hmem := hsub hm
  have hpred := (List.mem_filter.mp hmem).2
  simpa using hpred

theorem mapExcept_isOk {α β : Type} (f : α → Except String β) (l : List α)
    (h : ∀ x ∈ l, ∃ y, f x = Except.ok y) :
    ∃ ys, mapExcept f l = Except.ok ys := by
  induction l with
  | nil => exact ⟨[], rfl⟩
  | cons x xs ih =>
    obtain ⟨y, hy⟩ := h x (List.mem_cons_self x xs)
    obtain ⟨ys, hys⟩ := ih (fun z hz => h z (List.mem_cons_of_mem x hz))
    refine ⟨y :: ys, ?_⟩
    simp only [mapExcept]
    rw [hy, ebind_ok, hys, ebind_ok]

theorem mapExcept_map_fst {α β : Type} (g : α → Except String β) (l : List α)
    (ys : List (α × β))
    (h : mapExcept (fun x => (g x).map (fun v => (x, v))) l = Except.ok ys) :
    ∀ y ∈ ys, y.1 ∈ l := by
  induction l generalizing ys with
  | nil =>
    simp only [mapExcept] at h
    have : ([] : List (α × β)) = ys := Except.ok.inj h
    intro y hy
    rw [← this] at hy
    cases hy
  | cons x xs ih =>
    simp only [mapExcept] at h
    cases hg : g x with
    | error e =>
      rw [hg] at h
      rw [show ((Except.error e : Except String β).map fun v => (x, v)) =
        Except.error e from rfl, ebind_err] at h
      cases h
    | ok v =>
      rw [hg] at h
      rw [show ((Except.ok v : Except String β).map fun v => (x, v)) =
        Except.ok (x, v) from rfl, ebind_ok] at h
      cases hms : mapExcept (fun x => (g x).map fun v => (x, v)) xs with
      | error e =>
        rw [hms, ebind_err] at h
        cases h
      | ok ys' =>
        rw [hms, ebind_ok] at h
        have heq : (x, v) :: ys' = ys := Except.ok.inj h
        intro y hy
        rw [← heq] at hy
        rcases List.mem_cons.mp hy with hh | ht
        · rw [hh]
          exact List.mem_cons_self x xs
        · exact List.mem_cons_of_mem x (ih ys' hms y ht)

theorem pyminBy_mem {α : Type} (key : α → ℚ) (best : α) (xs : List α) :
    pyminBy key best xs ∈ best :: xs := by
  induction xs generalizing best with
  | nil => simp [pyminBy]
  | cons x xs ih =>
    rw [pyminBy]
    by_cases hc : key x < key best
    · rw [if_pos hc]
      have h := ih x
      simp only [List.mem_cons] at h ⊢
      tauto
    · rw [if_neg hc]
      have h := ih best
      simp only [List.mem_cons] at h ⊢
      tauto

theorem anticipated_move_isOk (tc : TypeChart) (a d : Pokemon) (w : Weather)
    (hdef : statOrBase d.stats.defn d.base_stats.defn ≠ 0)
    (hspd : statOrBase d.stats.spd d.base_stats.spd ≠ 0) :
    ∃ om, calculate_anticipated_move tc a d w = Except.ok om := by
  unfold calculate_anticipated_move
  by_cases hmv : a.moves = []
  · rw [if_pos hmv]
    exact ⟨none, rfl⟩
  · rw [if_neg hmv]
    unfold max_by_expected_damage
    obtain ⟨ys, hys⟩ := mapExcept_isOk
      (fun m => (calculate_expected_damage tc (some a) (some d) (some m) w).map
        (fun v => (m, v))) a.moves
      (by
        intro x hx
        obtain ⟨v, hv⟩ := damage_isOk tc a d (some x) w hdef hspd
        exact ⟨(x, v), by dsimp only; rw [hv]; rfl⟩)
    rw [hys, ebind_ok]
    exact ⟨_, rfl⟩

theorem anticipated_status_isOk (tc : TypeChart) (a d : Pokemon) (w : Weather) :
    ∃ om, calculate_anticipated_status_move tc a d w = Except.ok om := by
  unfold calculate_anticipated_status_move
  by_cases hmv : fetch_status_moves a = []
  · rw [if_pos hmv]
    exact ⟨none, rfl⟩
  · rw [if_neg hmv]
    unfold max_by_expected_damage
    obtain ⟨ys, hys⟩ := mapExcept_isOk
      (fun m => (calculate_expected_damage tc (some a) (some d) (some m) w).map
        (fun v => (m, v))) (fetch_status_moves a)
      (by
        intro x hx
        have hcat : x.category = MoveCategory.status := status_move_category a x hx
        exact ⟨(x, 0), by dsimp only; rw [damage_status_zero tc a d x w hcat]; rfl⟩)
    rw [hys, ebind_ok]
    exact ⟨_, rfl⟩

theorem threat_isOk (tc : TypeChart) (a d : Pokemon) (w : Weather)
    (hwd : wf_combatant d) :
    ∃ v, calculate_threat_value tc (some a) (some d) w = Except.ok v := by
  obtain ⟨hmax, hdef, hspd⟩ := hwd
  rw [threat_some_eq]
  obtain ⟨om, hom⟩ := anticipated_move_isOk tc a d w (by omega) (by omega)
  rw [hom, ebind_ok]
  obtain ⟨v, hv⟩ := damage_isOk tc a d om w (by omega) (by omega)
  rw [hv, ebind_ok, if_neg (by omega)]
  exact ⟨_, rfl⟩

theorem best_switch_isOk (tc : TypeChart) (battle : Battle) (o : Pokemon)
    (hopp : battle.opponent_active_pokemon = some o)
    (hsw : ∀ s ∈ battle.available_switches, wf_combatant s) :
    ∃ os, calculate_best_switch tc battle = Except.ok os ∧
      ∀ s, os = some s → s ∈ battle.available_switches := by
  unfold calculate_best_switch
  by_cases hav : battle.available_switches = []
  · rw [if_pos hav]
    exact ⟨none, rfl, fun s hs => by cases hs⟩
  · rw [if_neg hav]
    obtain ⟨ys, hys⟩ := mapExcept_isOk
      (fun p => (calculate_threat_value tc battle.opponent_active_pokemon (some p)
        battle.weather).map (fun v => (p, v))) battle.available_switches
      (by
        intro x hx
        rw [hopp]
        obtain ⟨v, hv⟩ := threat_isOk tc o x battle.weather (hsw x hx)
        exact ⟨(x, v), by dsimp only; rw [hv]; rfl⟩)
    rw [hys, ebind_ok]
    refine ⟨pyminPairs ys, rfl, ?_⟩
    intro s hs
    cases ys with
    | nil => cases hs
    | cons k ks =>
      have hk := Option.some.inj hs
      have hmm := pyminBy_mem Prod.snd k ks
      have hfst := mapExcept_map_fst
        (fun p => calculate_threat_value tc battle.opponent_active_pokemon (some p)
          battle.weather) battle.available_switches (k :: ks) hys
      have := hfst (pyminBy Prod.snd k ks) hmm
      rw [hk] at this
      exact this

theorem switch_value_isOk (tc : TypeChart) (battle : Battle) (p o : Pokemon)
    (hact : battle.active_pokemon = some p)
    (hopp : battle.opponent_active_pokemon = some o)
    (hwp : wf_combatant p)
    (hsw : ∀ s ∈ battle.available_switches, wf_combatant s) :
    ∃ v, calculate_switch_value tc battle = Except.ok v := by
  unfold calculate_switch_value
  rw [hact, hopp]
  obtain ⟨c, hc⟩ := threat_isOk tc o p battle.weather hwp
  rw [hc, ebind_ok]
  obtain ⟨os, hbs, hmem⟩ := best_switch_isOk tc battle o hopp hsw
  rw [hbs, ebind_ok]
  cases os with
  | none =>
    rw [threat_none_defender, ebind_ok]
    exact ⟨_, rfl⟩
  | some s =>
    obtain ⟨t, ht⟩ := threat_isOk tc o s battle.weather (hsw s (hmem s rfl))
    rw [ht, ebind_ok]
    exact ⟨_, rfl⟩

theorem attack_value_isOk (tc : TypeChart) (a d : Pokemon) (w : Weather)
    (hwd : wf_combatant d) :
    ∃ v, calculate_attack_value tc (some a) (some d) w = Except.ok v := by
  obtain ⟨hmax, hdef, hspd⟩ := hwd
  rw [attack_value_some_eq]
  obtain ⟨om, hom⟩ := anticipated_move_isOk tc a d w (by omega) (by omega)
  rw [hom, ebind_ok]
  obtain ⟨v, hv⟩ := damage_isOk tc a d om w (by omega) (by omega)
  rw [hv, ebind_ok, if_neg (by omega)]
  exact ⟨_, rfl⟩

theorem status_value_isOk (tc : TypeChart) (a d : Pokemon) (w : Weather)
    (hd : d.current_hp ≠ 0) :
    ∃ v, calculate_status_value tc (some a) (some d) w = Except.ok v := by
  rw [status_value_some_eq]
  obtain ⟨om, hom⟩ := anticipated_status_isOk tc a d w
  rw [hom, ebind_ok]
  cases om with
  | none => exact ⟨0, rfl⟩
  | some m =>
    rw [if_neg hd]
    exact ⟨_, rfl⟩

theorem heal_value_isOk (p : Pokemon) (hp : p.max_hp ≠ 0) :
    ∃ v, calculate_heal_value (some p) = Except.ok v := by
  rw [heal_value_some_eq]
  cases calculate_anticipated_healing_move p with
  | none => exact ⟨0, rfl⟩
  | some m =>
    dsimp only
    rw [if_neg hp]
    exact ⟨_, rfl⟩

/-- Counterexample to C3 as stated: with health values inside [0, max] (a fainted
opponent at 0/100), the status-value computation divides by the defender's current
health and raises ZeroDivisionError, which propagates out of the scorer. -/
theorem claim_C3_counterexample :
    faintedMon.current_hp = 0 ∧ faintedMon.current_hp ≤ faintedMon.max_hp ∧
    calculate_status_value tcOne (some monWithStatusMove) (some faintedMon)
      Weather.clearskies = Except.error "ZeroDivisionError" ∧
    calculate_most_effective_move tcOne battleFaint (some monWithStatusMove)
      (some faintedMon) Weather.clearskies = Except.error "ZeroDivisionError" := by
  have hst : calculate_status_value tcOne (some monWithStatusMove) (some faintedMon)
      Weather.clearskies = Except.error "ZeroDivisionError" := rfl
  have hsv : calculate_switch_value tcOne battleFaint = Except.ok 0 := by
    norm_num [calculate_switch_value, calculate_threat_value, calculate_best_switch,
      calculate_anticipated_move, max_by_expected_damage, mapExcept, pymaxPairs, pymaxBy,
      Except.map, ebind_ok, calculate_expected_damage, battleFaint, monWithStatusMove,
      faintedMon, plainMon, basicStats, basicBase, tcOne, toxic]
    try simp
    try norm_num [max_def]
  refine ⟨rfl, by decide, hst, ?_⟩
  rw [most_effective_some_eq, hsv, ebind_ok, hst, ebind_err]

/-- Claim C3 (amended): for a snapshot whose combatants all have positive maximum
health and positive effective defensive stats, and whose opponent has positive current
health, no exception propagates out of the action scorer — the only division
denominators in the pipeline are those quantities. -/
theorem claim_C3_amended (tc : TypeChart) (battle : Battle) (p o : Pokemon) (w : Weather)
    (hact : battle.active_pokemon = some p)
    (hopp : battle.opponent_active_pokemon = some o)
    (hwp : wf_combatant p) (hwo : wf_combatant o)
    (hsw : ∀ s ∈ battle.available_switches, wf_combatant s)
    (ho : 0 < o.current_hp) :
    ∃ r, calculate_most_effective_move tc battle (some p) (some o) w = Except.ok r := by
  rw [most_effective_some_eq]
  obtain ⟨sv, hsv⟩ := switch_value_isOk tc battle p o hact hopp hwp hsw
  rw [hsv, ebind_ok]
  obtain ⟨stv, hstv⟩ := status_value_isOk tc p o w (by omega)
  rw [hstv, ebind_ok]
  obtain ⟨av, hav⟩ := attack_value_isOk tc p o w hwo
  rw [hav, ebind_ok]
  obtain ⟨hv, hhv⟩ := heal_value_isOk p (by have := hwp.1; omega)
  rw [hhv, ebind_ok]
  dsimp only
  cases hbt : (best_action
      (sv * (if fetch_acting_first p o then FIRST_ACTING_WEIGHTS
        else LAST_ACTING_WEIGHTS).switch)
      (av * (if fetch_acting_first p o then FIRST_ACTING_WEIGHTS
        else LAST_ACTING_WEIGHTS).attack)
      (stv * (if fetch_acting_first p o then FIRST_ACTING_WEIGHTS
        else LAST_ACTING_WEIGHTS).status)
      (hv * (if fetch_acting_first p o then FIRST_ACTING_WEIGHTS
        else LAST_ACTING_WEIGHTS).heal)).type with
  | ATTACK =>
    obtain ⟨hwo1, hwo2, hwo3⟩ := hwo
    obtain ⟨om, hom⟩ := anticipated_move_isOk tc p o w (by omega) (by omega)
    rw [hom, ebind_ok]
    exact ⟨_, rfl⟩
  | STATUS =>
    obtain ⟨om, hom⟩ := anticipated_status_isOk tc p o w
    rw [hom, ebind_ok]
    exact ⟨_, rfl⟩
  | HEAL => exact ⟨_, rfl⟩
  | SWITCH =>
    obtain ⟨os, hbs, hmem⟩ := best_switch_isOk tc battle o hopp hsw
    rw [hbs, ebind_ok]
    exact ⟨_, rfl⟩

/-- Witness for C3 (amended) on the concrete battle with well-formed combatants. -/
theorem claim_C3_witness :
    ∃ r, calculate_most_effective_move tcOne battle1c (some player1) (some oppMon)
      Weather.clearskies = Except.ok r :=
  claim_C3_amended tcOne battle1c player1 oppMon Weather.clearskies rfl rfl
    (by decide) (by decide) (by decide) (by decide)

end ShowdownAgent
